import Mathlib

/-
Shallow embedding of the client-side router in
src/packages/kit/src/runtime/client/router.js.

Browser strings are modelled as Lean `String`; browser history is an
explicit stack of entries; the Renderer collaborator is modelled by the
calls the router issues to it.  Every definition is translated from the
source file; platform builtins (decodeURIComponent, URLSearchParams,
URL/Location) are modelled to the extent the router exercises them.
-/

namespace KitClient

/-- Hexadecimal digit value of a character, used by the percent-decoder. -/
def hexDigit (c : Char) : Option Nat :=
  if '0' ≤ c ∧ c ≤ '9' then some (c.toNat - '0'.toNat)
  else if 'a' ≤ c ∧ c ≤ 'f' then some (c.toNat - 'a'.toNat + 10)
  else if 'A' ≤ c ∧ c ≤ 'F' then some (c.toNat - 'A'.toNat + 10)
  else none

/-- Percent-decoding on character lists: each `%xy` hex pair becomes the
character with that code; malformed escapes pass through unchanged.
Models the platform builtin `decodeURIComponent` to the extent the router
exercises it (single-byte sequences; the UTF-8 multi-byte recombination and
the URIError on malformed input are outside what the claims touch). -/
def decodePercent : List Char → List Char
  | [] => []
  | '%' :: a :: b :: rest =>
    match hexDigit a, hexDigit b with
    | some ha, some hb => Char.ofNat (16 * ha + hb) :: decodePercent rest
    | _, _ => '%' :: decodePercent (a :: b :: rest)
  | c :: rest => c :: decodePercent rest

/-- Model of the platform builtin `decodeURIComponent`. -/
def decodeURIComponent (s : String) : String := String.mk (decodePercent s.data)

/-- JavaScript `s || d` on strings: the empty string is falsy. -/
def jsOr (s d : String) : String := if s = "" then d else s

/-- JavaScript `s.startsWith(p)`. -/
def jsStartsWith (s p : String) : Bool := decide (s.data.take p.data.length = p.data)

/-- JavaScript `s.slice(n)` for a non-negative index. -/
def jsDrop (s : String) (n : Nat) : String := String.mk (s.data.drop n)

/-- JavaScript `s.length` (code units; identical to the character count on
the ASCII configuration strings the router handles). -/
def jsLength (s : String) : Nat := s.data.length

/-- JavaScript `s.includes(c)` for a single character. -/
def jsContains (s : String) (c : Char) : Bool := decide (c ∈ s.data)

/-- JavaScript `s.split(c)` for a single-character separator:
always returns a non-empty list, with empty pieces kept. -/
def splitOnChar (c : Char) : List Char → List (List Char)
  | [] => [[]]
  | x :: xs =>
    let rest := splitOnChar c xs
    if x = c then [] :: rest
    else
      match rest with
      | [] => [[x]]
      | r :: rs => (x :: r) :: rs

/-- JavaScript `path.split('/').pop()`: the final `/`-separated segment of
a path (the empty string when the path ends in a slash). -/
def lastSegment (s : String) : String :=
  String.mk ((splitOnChar '/' s.data).getLastD [])

/-- JavaScript `path.endsWith('/')`. -/
def has_trailing_slash (path : String) : Bool :=
  decide (path.data.getLast? = some '/')

/-- JavaScript `path.slice(0, -1)`: the path without its final character. -/
def dropLastChar (s : String) : String := String.mk s.data.dropLast

/-- Whether a string ends in two (or more) slashes.  Used to delimit the
inputs on which one pass of trailing-slash stripping already reaches a
fixed point. -/
def ends_in_double_slash (s : String) : Bool :=
  decide (s.data.getLast? = some '/' ∧ s.data.dropLast.getLast? = some '/')

/-- Model of a browser URL as exposed by the `URL` / `Location` interfaces:
`origin`, `pathname`, `search` (with its leading `?`, or empty) and `hash`
(with its leading `#`, or empty). -/
structure Url where
  origin : String
  pathname : String
  search : String
  hash : String
deriving DecidableEq, Repr

/-- The `href` serialization of a URL. -/
def Url.href (u : Url) : String := u.origin ++ u.pathname ++ u.search ++ u.hash

/-- Splitting of one `k=v` piece at its first `=` sign (later `=` signs
belong to the value; a piece without `=` has an empty value). -/
def breakAtEq : List Char → List Char × List Char
  | [] => ([], [])
  | c :: rest =>
    if c = '=' then ([], rest)
    else
      let p := breakAtEq rest
      (c :: p.1, p.2)

/-- Model of `new URLSearchParams(search)`: strip the leading `?`, split on
`&` dropping empty pieces, and split each piece at its first `=`.
Percent/plus re-coding of keys and values is not modelled; the router only
constructs the params and stringifies them back. -/
def parseSearch (search : String) : List (String × String) :=
  let s := if jsStartsWith search "?" then jsDrop search 1 else search
  (splitOnChar '&' s.data).filterMap fun pair =>
    if pair = [] then none
    else
      let p := breakAtEq pair
      some (String.mk p.1, String.mk p.2)

/-- Joining with a separator, as `Array.prototype.join` does. -/
def joinWith (sep : String) : List String → String
  | [] => ""
  | [s] => s
  | s :: rest => s ++ sep ++ joinWith sep rest

/-- Model of `URLSearchParams.toString` (the `${query}` interpolation in
`parse`): `k=v` pairs joined by `&`. -/
def queryToString (q : List (String × String)) : String :=
  joinWith "&" (q.map fun kv => kv.1 ++ "=" ++ kv.2)

/-- Client-side route definition: the router only uses a route's pattern
through `pattern.test(path)`, modelled as a boolean predicate on paths. -/
structure CSRRoute where
  test : String → Bool

/-- Record produced by `Router.parse` and consumed by the Renderer. -/
structure NavigationInfo where
  id : String
  routes : List CSRRoute
  path : String
  query : List (String × String)

/-- Trailing-slash policy from the router configuration. -/
inductive TrailingSlash where
  | never
  | always
  | ignore
deriving DecidableEq, Repr

/-- Router state: the three configuration fields set by the constructor
plus the `enabled` flag toggled by `init` / `enable` / `disable`. -/
structure Router where
  base : String
  routes : List CSRRoute
  trailing_slash : TrailingSlash
  enabled : Bool

/-- Scroll offsets, as captured by `scroll_state()`. -/
structure Scroll where
  x : Int
  y : Int
deriving DecidableEq, Repr

/-- One browser history entry: its URL string and the
`sveltekit:scroll` component of its state object (absent for the `{}`
states written by the router's push/replace calls). -/
structure HistEntry where
  url : String
  scroll : Option Scroll
deriving DecidableEq, Repr

/-- Browser history as seen by the router: the current entry plus the
stack of earlier entries (most recent first). -/
structure History where
  back : List HistEntry
  current : HistEntry
deriving DecidableEq, Repr

/-- Model of `history.pushState`: a new current entry, the old one pushed
onto the back stack. -/
def History.push (h : History) (e : HistEntry) : History := ⟨h.current :: h.back, e⟩

/-- Model of `history.replaceState`: the current entry is rewritten in
place, the back stack untouched. -/
def History.replace (h : History) (e : HistEntry) : History := ⟨h.back, e⟩

/-- Number of entries the model tracks (current plus back stack). -/
def History.length (h : History) : Nat := h.back.length + 1

/-- Router.owns (router.js lines 157-160): the URL's origin equals the
current origin and its pathname starts with the configured base. -/
def Router.owns (r : Router) (loc url : Url) : Bool :=
  decide (url.origin = loc.origin) && jsStartsWith url.pathname r.base

/-- Router.parse (router.js lines 162-177): on an owned URL, strip the
base from the pathname, percent-decode, default to `/` when empty, filter
the routes whose pattern matches, and build `id` as
`path + '?' + stringified query`; on a non-owned URL, return nothing
(the JavaScript function falls off the end and yields `undefined`). -/
def Router.parse (r : Router) (loc url : Url) : Option NavigationInfo :=
  if r.owns loc url then
    let path := decodeURIComponent (jsOr (jsDrop url.pathname (jsLength r.base)) "/")
    let routes := r.routes.filter fun route => route.test path
    let query := parseSearch url.search
    let id := path ++ "?" ++ queryToString query
    some { id := id, routes := routes, path := path, query := query }
  else none

/-- Trailing-slash normalization step of Router._navigate (router.js lines
233-247) as a function of the policy and the resolved path: the path `/`
is exempt; otherwise the path is `incorrect` when it has a trailing slash
under policy `never`, or lacks one under policy `always` while its final
segment contains no `.`; an incorrect path has the slash stripped or
appended respectively. -/
def normalize_path (ts : TrailingSlash) (path : String) : String :=
  if path = "/" then path
  else
    if (has_trailing_slash path = true ∧ ts = TrailingSlash.never)
        ∨ (has_trailing_slash path = false ∧ ts = TrailingSlash.always
            ∧ jsContains (lastSegment path) '.' = false) then
      if has_trailing_slash path = true then dropLastChar path else path ++ "/"
    else path

/-- Synchronous prefix of Router._navigate (router.js lines 226-254):
parse the URL (throwing when it is not owned), apply trailing-slash
normalization to `info.path`, and when the path changed rewrite the
current history entry in place to `info.path + location.search` with a
`{}` state.  The returned pair is the `info` handed to
`renderer.notify` / `renderer.update` together with the updated history.
The source guards the rewrite by the `incorrect` flag; `incorrect` holds
exactly when normalization changes the path (stripping or appending a
character always changes the string), so the guard is stated as an
inequality here.  The `scroll` / `chain` / `hash` arguments only feed the
post-`update` scroll restoration, outside this model. -/
def Router.navStep (r : Router) (loc : Url) (hist : History) (url : Url) :
    Except String (NavigationInfo × History) :=
  match r.parse loc url with
  | none => Except.error "Attempted to navigate to a URL that does not belong to this app"
  | some info =>
    let newPath := normalize_path r.trailing_slash info.path
    if newPath = info.path then Except.ok (info, hist)
    else
      Except.ok ({ info with path := newPath },
        hist.replace ⟨newPath ++ loc.search, none⟩)

/-- Calls the router issues to its Renderer collaborator. -/
inductive RendererCall where
  | load (info : NavigationInfo)

/-- Router.prefetch (router.js lines 206-218): parse the URL, throw when
it does not belong to the app, otherwise delegate to `renderer.load`. -/
def Router.prefetch (r : Router) (loc url : Url) : Except String RendererCall :=
  match r.parse loc url with
  | none => Except.error "Attempted to prefetch a URL that does not belong to this app"
  | some info => Except.ok (RendererCall.load info)

/-- Fields of a click event the handler inspects. -/
structure ClickEvent where
  button : Nat
  which : Nat
  metaKey : Bool
  ctrlKey : Bool
  shiftKey : Bool
  altKey : Bool
  defaultPrevented : Bool
deriving DecidableEq, Repr

/-- The nearest-anchor element found by `find_anchor`, reduced to the
attributes the listeners read.  `href` is the anchor's resolved absolute
URL (absent when the attribute is missing); `rel` is the
whitespace-split `rel` attribute. -/
structure Anchor where
  href : Option Url
  hasDownload : Bool
  rel : Option (List String)
  target : String
  hasPrefetchAttr : Bool
  hasNoscroll : Bool

/-- JavaScript `rel && rel.includes('external')`. -/
def relIncludesExternal : Option (List String) → Bool
  | none => false
  | some rel => rel.contains "external"

/-- Outcome of one run of the click listener: the resulting history, the
arguments of the `_navigate` call when one is made
(url, scroll, chain, hash), and whether `event.preventDefault()` ran. -/
structure ClickResult where
  history : History
  nav : Option (Url × Option Scroll × List String × String)
  prevented : Bool

/-- Click listener installed by Router.init (router.js lines 97-141):
guards (enabled flag, primary unmodified click, anchor with an href),
the same-href short-circuit, the download / rel-external / target /
ownership filters, and finally `history.pushState` followed by
`_navigate` and `preventDefault`.  `cur_scroll` is the value
`scroll_state()` would read. -/
def Router.handle_click (r : Router) (loc : Url) (hist : History) (cur_scroll : Scroll)
    (ev : ClickEvent) (anchor : Option Anchor) : ClickResult :=
  if r.enabled = false then ⟨hist, none, false⟩
  else if ev.button ≠ 0 ∨ ev.which ≠ 1 then ⟨hist, none, false⟩
  else if ev.metaKey = true ∨ ev.ctrlKey = true ∨ ev.shiftKey = true ∨ ev.altKey = true then
    ⟨hist, none, false⟩
  else if ev.defaultPrevented = true then ⟨hist, none, false⟩
  else
    match anchor with
    | none => ⟨hist, none, false⟩
    | some a =>
      match a.href with
      | none => ⟨hist, none, false⟩
      | some u =>
        if u.href = loc.href then
          if loc.hash = "" then ⟨hist, none, true⟩ else ⟨hist, none, false⟩
        else if a.hasDownload = true ∨ relIncludesExternal a.rel = true then
          ⟨hist, none, false⟩
        else if a.target ≠ "" then ⟨hist, none, false⟩
        else if r.owns loc u = false then ⟨hist, none, false⟩
        else
          ⟨hist.push ⟨u.href, none⟩,
            some (u, (if a.hasNoscroll = true then some cur_scroll else none), [], u.hash),
            true⟩

/-- Popstate listener (router.js lines 143-148): acts only when the event
carries state and the router is enabled; re-navigates to the current
location with the scroll recorded in that state and an empty chain.
`event_state` is `none` when `event.state` is null, otherwise it carries
the `sveltekit:scroll` component. -/
def Router.handle_popstate (r : Router) (loc : Url)
    (event_state : Option (Option Scroll)) : Option (Url × Option Scroll × List String) :=
  match event_state with
  | some s => if r.enabled = true then some (loc, s, []) else none
  | none => none

/-- Prefetch trigger shared by the `touchstart` and `mousemove` listeners
(router.js lines 74-80): when the event's nearest anchor has an href and
the `sveltekit:prefetch` attribute, call `this.prefetch` on it.  The
source applies no `enabled` guard here. -/
def Router.trigger_prefetch (r : Router) (loc : Url) (anchor : Option Anchor) :
    Option (Except String RendererCall) :=
  match anchor with
  | some a =>
    match a.href with
    | some u => if a.hasPrefetchAttr = true then some (r.prefetch loc u) else none
    | none => none
  | none => none

/-- Debounced body of the scroll listener (router.js lines 61-72): replace
the current history entry in place with the same URL and the sampled
scroll position under the `sveltekit:scroll` key.  The source applies no
`enabled` guard here. -/
def handle_scroll (hist : History) (loc_href : String) (s : Scroll) : History :=
  History.replace hist ⟨loc_href, some s⟩

/-- History mutation selector used by `goto`. -/
inductive HistoryOp where
  | push
  | replace
deriving DecidableEq, Repr

/-- Result of Router.goto: either a history mutation followed by
delegation to `_navigate`, or a hand-off to the browser
(`location.href = url.href`) whose promise never settles. -/
inductive GotoOutcome where
  | navigated (op : HistoryOp) (result : Except String (NavigationInfo × History))
  | handedOff (locationHref : String)

/-- Router.goto (router.js lines 184-196): when the router is enabled and
the resolved URL is owned, run `replaceState` or `pushState` with the raw
`href` per the `replaceState` option and delegate to `_navigate` (at which
point the location is the target URL); otherwise assign `location.href`
and return a promise that never settles, modelled by the `handedOff`
constructor.  The `noscroll` option only feeds the post-`update` scroll
restoration, outside this model. -/
def Router.goto (r : Router) (loc : Url) (hist : History) (href : String) (url : Url)
    (replace_state : Bool) : GotoOutcome :=
  if r.enabled = true ∧ r.owns loc url = true then
    let hist1 := if replace_state = true then hist.replace ⟨href, none⟩
                 else hist.push ⟨href, none⟩
    GotoOutcome.navigated
      (if replace_state = true then HistoryOp.replace else HistoryOp.push)
      (r.navStep url hist1 url)
  else GotoOutcome.handedOff url.href

/-- Router.enable (router.js lines 198-200). -/
def Router.enable (r : Router) : Router := { r with enabled := true }

/-- Router.disable (router.js lines 202-204). -/
def Router.disable (r : Router) : Router := { r with enabled := false }

/-- Description of the trailing-slash policy taken from the claim's words,
for comparison with the `normalize_path` step extracted from the source:
`never` strips a trailing slash, `always` appends one unless the final
`/`-separated segment contains a `.`, `ignore` passes every path through. -/
def policy_normalized_spec (ts : TrailingSlash) (path : String) : String :=
  match ts with
  | TrailingSlash.ignore => path
  | TrailingSlash.never =>
    if has_trailing_slash path = true then dropLastChar path else path
  | TrailingSlash.always =>
    if has_trailing_slash path = false ∧ jsContains (lastSegment path) '.' = false
    then path ++ "/"
    else path

/-- Concrete fixture: a current location at the app's origin. -/
def loc0 : Url := ⟨"http://example.com", "/", "", ""⟩

/-- Concrete fixture: an owned URL at the app's origin. -/
def urlA : Url := ⟨"http://example.com", "/x", "", ""⟩

/-- Concrete fixture: a URL on a foreign origin. -/
def urlB : Url := ⟨"http://evil.example", "/x", "", ""⟩

/-- Concrete fixture: an enabled router with empty base and no routes. -/
def router0 : Router := ⟨"", [], TrailingSlash.never, true⟩

/-- Concrete fixture: the NavigationInfo `router0.parse` produces for
`urlA`. -/
def info0 : NavigationInfo := ⟨"/x?", [], "/x", []⟩

/-- Concrete fixture: a one-entry history sitting at `loc0`. -/
def hist0 : History := ⟨[], ⟨"http://example.com/", none⟩⟩

/-- Concrete fixture: a router configured with a non-empty base path. -/
def routerApp : Router := ⟨"/app", [], TrailingSlash.never, true⟩

/-- Concrete fixture: an owned URL under the `/app` base whose path has a
trailing slash. -/
def urlApp : Url := ⟨"http://example.com", "/app/about/", "", ""⟩

/-- Concrete fixture: a one-entry history sitting at `urlApp`. -/
def histApp : History := ⟨[], ⟨"http://example.com/app/about/", none⟩⟩

/-- Concrete fixture: a disabled router with empty base. -/
def routerD : Router := ⟨"", [], TrailingSlash.never, false⟩

/-- Concrete fixture: an anchor carrying the `sveltekit:prefetch`
attribute and pointing at `urlA`. -/
def anchorPre : Anchor := ⟨some urlA, false, none, "", true, false⟩

/-- Concrete fixture: a plain anchor pointing at `urlA`. -/
def anchorNav : Anchor := ⟨some urlA, false, none, "", false, false⟩

/-- Concrete fixture: a primary unmodified click event. -/
def ev0 : ClickEvent := ⟨0, 1, false, false, false, false, false⟩

/-- Concrete fixture: a scroll position. -/
def sc0 : Scroll := ⟨0, 0⟩

/- ------------------------------------------------------------------ -/
/- Helper lemmas shared by the claim theorems.                         -/
/- ------------------------------------------------------------------ -/

theorem parse_isSome (r : Router) (loc url : Url) :
    (r.parse loc url).isSome = r.owns loc url := by
  unfold Router.parse
  by_cases h : r.owns loc url = true
  · simp [h]
  · simp [Bool.not_eq_true] at h
    simp [h]

theorem parse_eq_none_iff (r : Router) (loc url : Url) :
    r.parse loc url = none ↔ r.owns loc url = false := by
  constructor
  · intro h
    have := parse_isSome r loc url
    rw [h] at this
    simp at this
    exact this
  · intro h
    unfold Router.parse
    simp [h]

theorem parse_of_owns (r : Router) (loc url : Url) (h : r.owns loc url = true) :
    r.parse loc url =
      some { id := decodeURIComponent (jsOr (jsDrop url.pathname (jsLength r.base)) "/")
                    ++ "?" ++ queryToString (parseSearch url.search),
             routes := r.routes.filter fun route =>
               route.test (decodeURIComponent (jsOr (jsDrop url.pathname (jsLength r.base)) "/")),
             path := decodeURIComponent (jsOr (jsDrop url.pathname (jsLength r.base)) "/"),
             query := parseSearch url.search } := by
  unfold Router.parse
  simp [h]

/- ------------------------------------------------------------------ -/
/- Claim theorems.                                                     -/
/- ------------------------------------------------------------------ -/

/-- C1: `parse` returns a NavigationInfo exactly when the URL's origin
equals the current origin and its pathname starts with the configured
base; in particular every URL with a different origin has `owns` false
and `parse` absent. -/
theorem c1_parse_iff_owns (r : Router) (loc url : Url) :
    ((r.parse loc url).isSome = true ↔ r.owns loc url = true) ∧
    (r.owns loc url = true ↔
      (url.origin = loc.origin ∧ jsStartsWith url.pathname r.base = true)) ∧
    (url.origin ≠ loc.origin → r.owns loc url = false ∧ r.parse loc url = none) := by
  have hown : r.owns loc url = true ↔
      (url.origin = loc.origin ∧ jsStartsWith url.pathname r.base = true) := by
    unfold Router.owns
    simp [Bool.and_eq_true, decide_eq_true_iff]
  refine ⟨?_, hown, ?_⟩
  · rw [parse_isSome]
  · intro h
    have hfalse : r.owns loc url = false := by
      cases how : r.owns loc url with
      | false => rfl
      | true => exact absurd (hown.mp how).1 h
    exact ⟨hfalse, (parse_eq_none_iff r loc url).mpr hfalse⟩

/-- Witness for C1 at a concrete foreign-origin URL. -/
theorem c1_parse_iff_owns_witness :
    router0.owns loc0 urlB = false ∧ router0.parse loc0 urlB = none :=
  (c1_parse_iff_owns router0 loc0 urlB).2.2 (by decide)

/-- C2: on an owned URL, `parse` yields a NavigationInfo whose `path` is
the percent-decoded base-stripped pathname (defaulting to `/` when the
stripped pathname is empty), whose `query` is the parsed search string,
whose `id` is `path + '?' + stringified query`, and whose `routes` are the
configured routes filtered by matching the path; a second call on the same
URL yields the same `id`. -/
theorem c2_parse_fields (r : Router) (loc url : Url) (h : r.owns loc url = true) :
    ∃ info, r.parse loc url = some info ∧
      info.path = decodeURIComponent (jsOr (jsDrop url.pathname (jsLength r.base)) "/") ∧
      info.query = parseSearch url.search ∧
      info.id = info.path ++ "?" ++ queryToString info.query ∧
      info.routes = (r.routes.filter fun route => route.test info.path) ∧
      (∀ info2, r.parse loc url = some info2 → info2.id = info.id) := by
  refine ⟨_, parse_of_owns r loc url h, rfl, rfl, rfl, rfl, ?_⟩
  intro info2 h2
  rw [parse_of_owns r loc url h] at h2
  injection h2 with h2
  rw [← h2]

/-- Witness for C2 at a concrete owned URL with a query string. -/
theorem c2_parse_fields_witness :
    ∃ info, router0.parse loc0 ⟨"http://example.com", "/x", "?a=1", ""⟩ = some info ∧
      info.path = decodeURIComponent (jsOr
        (jsDrop (Url.pathname ⟨"http://example.com", "/x", "?a=1", ""⟩) (jsLength router0.base)) "/") ∧
      info.query = parseSearch "?a=1" ∧
      info.id = info.path ++ "?" ++ queryToString info.query ∧
      info.routes = (router0.routes.filter fun route => route.test info.path) ∧
      (∀ info2, router0.parse loc0 ⟨"http://example.com", "/x", "?a=1", ""⟩ = some info2 →
        info2.id = info.id) :=
  c2_parse_fields router0 loc0 ⟨"http://example.com", "/x", "?a=1", ""⟩ (by decide)

/-- C3: the trailing-slash normalization step of `_navigate` realizes the
claimed policy behavior: the path `/` is never modified, and every other
path is rewritten exactly as `policy_normalized_spec` describes (`never`
strips a trailing slash, `always` appends one unless the final segment
contains a `.`, `ignore` changes nothing). -/
theorem c3_normalization_policy (ts : TrailingSlash) (path : String) :
    normalize_path ts "/" = "/" ∧
    (path ≠ "/" → normalize_path ts path = policy_normalized_spec ts path) := by
  constructor
  · simp [normalize_path]
  · intro hp
    unfold normalize_path policy_normalized_spec
    rw [if_neg hp]
    cases ts with
    | never =>
      by_cases hts : has_trailing_slash path = true
      · simp [hts]
      · simp only [Bool.not_eq_true] at hts
        simp [hts]
    | always =>
      by_cases hts : has_trailing_slash path = true
      · simp [hts]
      · simp only [Bool.not_eq_true] at hts
        by_cases hdot : jsContains (lastSegment path) '.' = false
        · simp [hts, hdot]
        · simp only [Bool.not_eq_false] at hdot
          simp [hts, hdot]
    | ignore => simp

/-- Normalization leaves the root path unchanged under every policy. -/
theorem normalize_path_root (ts : TrailingSlash) : normalize_path ts "/" = "/" := by
  simp [normalize_path]

/-- Normalization under `ignore` is the identity. -/
theorem normalize_path_ignore (path : String) :
    normalize_path TrailingSlash.ignore path = path := by
  unfold normalize_path
  split_ifs with h1 h2 <;> simp_all

/-- Appending a slash produces a trailing slash. -/
theorem has_trailing_slash_append (p : String) :
    has_trailing_slash (p ++ "/") = true := by
  have hd : (p ++ "/").data = p.data ++ ['/'] := rfl
  simp [has_trailing_slash, hd, List.getLast?_concat]

/-- Counterexample input for C9: one pass of slash-stripping under policy
`never` can leave a path that still ends in a slash. -/
theorem c9_counterexample :
    normalize_path TrailingSlash.never (normalize_path TrailingSlash.never "/a//")
      ≠ normalize_path TrailingSlash.never "/a//" := by decide

/-- C9 amended: trailing-slash normalization is idempotent under `always`
and `ignore` on every path, and under `never` on every path that does not
end in two or more slashes (on a path ending in several slashes one pass
strips a single slash, so its output is not yet canonical). -/
theorem c9_amended_idempotent (ts : TrailingSlash) (path : String)
    (h : ts = TrailingSlash.never → ends_in_double_slash path = false) :
    normalize_path ts (normalize_path ts path) = normalize_path ts path := by
  by_cases hp : path = "/"
  · subst hp
    rw [normalize_path_root, normalize_path_root]
  · cases ts with
    | ignore => rw [normalize_path_ignore, normalize_path_ignore]
    | never =>
      by_cases hts : has_trailing_slash path = true
      · have hdd : ends_in_double_slash path = false := h rfl
        have h1 : path.data.getLast? = some '/' := by
          simpa [has_trailing_slash] using hts
        have h2 : path.data.dropLast.getLast? ≠ some '/' := by
          intro hc
          have hkey : ends_in_double_slash path = true := by
            simp [ends_in_double_slash, h1, hc]
          rw [hdd] at hkey
          exact Bool.false_ne_true hkey
        have hts2 : has_trailing_slash (dropLastChar path) = false := by
          simp [has_trailing_slash, dropLastChar, h2]
        have hne2 : dropLastChar path ≠ "/" := by
          intro hc
          have hdata : path.data.dropLast = ['/'] := congrArg String.data hc
          exact h2 (by rw [hdata]; rfl)
        have e1 : normalize_path TrailingSlash.never path = dropLastChar path := by
          unfold normalize_path
          rw [if_neg hp, if_pos (Or.inl ⟨hts, rfl⟩), if_pos hts]
        have e2 : normalize_path TrailingSlash.never (dropLastChar path) =
            dropLastChar path := by
          unfold normalize_path
          rw [if_neg hne2, if_neg (by simp [hts2])]
        rw [e1, e2]
      · have e1 : normalize_path TrailingSlash.never path = path := by
          unfold normalize_path
          rw [if_neg hp, if_neg (by simp [hts])]
        rw [e1, e1]
    | always =>
      by_cases hts : has_trailing_slash path = true
      · have e1 : normalize_path TrailingSlash.always path = path := by
          unfold normalize_path
          rw [if_neg hp, if_neg (by simp [hts])]
        rw [e1, e1]
      · by_cases hdot : jsContains (lastSegment path) '.' = false
        · have e1 : normalize_path TrailingSlash.always path = path ++ "/" := by
            unfold normalize_path
            rw [if_neg hp,
              if_pos (Or.inr ⟨by simpa using hts, rfl, hdot⟩),
              if_neg (by simp [hts])]
          have e2 : normalize_path TrailingSlash.always (path ++ "/") = path ++ "/" := by
            by_cases hq : path ++ "/" = "/"
            · rw [hq, normalize_path_root]
            · unfold normalize_path
              rw [if_neg hq, if_neg (by simp [has_trailing_slash_append])]
          rw [e1, e2]
        · have e1 : normalize_path TrailingSlash.always path = path := by
            unfold normalize_path
            rw [if_neg hp, if_neg (by simp [hts, hdot])]
          rw [e1, e1]

/-- Witness for C9 amended at concrete paths. -/
theorem c9_amended_idempotent_witness :
    normalize_path TrailingSlash.always
        (normalize_path TrailingSlash.always "/about") =
      normalize_path TrailingSlash.always "/about" ∧
    normalize_path TrailingSlash.never
        (normalize_path TrailingSlash.never "/about/") =
      normalize_path TrailingSlash.never "/about/" :=
  ⟨c9_amended_idempotent TrailingSlash.always "/about" (by decide),
   c9_amended_idempotent TrailingSlash.never "/about/" (by decide)⟩

/-- A successful parse implies ownership. -/
theorem owns_of_parse_some (r : Router) (loc url : Url) (info : NavigationInfo)
    (h : r.parse loc url = some info) : r.owns loc url = true := by
  have hs := parse_isSome r loc url
  rw [h] at hs
  simpa using hs.symm

/-- Field equations satisfied by every NavigationInfo that `parse`
produces: `id` is built from `path` and the stringified `query`, and
`routes` is the filter of the configured routes by `path`. -/
theorem parse_some_fields (r : Router) (loc url : Url) (info : NavigationInfo)
    (h : r.parse loc url = some info) :
    info.id = info.path ++ "?" ++ queryToString info.query ∧
    info.routes = (r.routes.filter fun route => route.test info.path) ∧
    info.query = parseSearch url.search := by
  have hrec := parse_of_owns r loc url (owns_of_parse_some r loc url info h)
  rw [h] at hrec
  injection hrec with hrec
  subst hrec
  exact ⟨rfl, rfl, rfl⟩

/-- Behavior of `navStep` when normalization changes the resolved path:
the info handed to the renderer carries the new path, and the current
history entry is replaced with the normalized path plus the location's
search string. -/
theorem navStep_changed (r : Router) (loc url : Url) (hist : History)
    (info : NavigationInfo) (h : r.parse loc url = some info)
    (hchg : normalize_path r.trailing_slash info.path ≠ info.path) :
    r.navStep loc hist url = Except.ok
      ({ info with path := normalize_path r.trailing_slash info.path },
        hist.replace ⟨normalize_path r.trailing_slash info.path ++ loc.search, none⟩) := by
  unfold Router.navStep
  rw [h]
  simp [hchg]

/-- Witness for C3 at the claim's worked examples. -/
theorem c3_normalization_policy_witness :
    normalize_path TrailingSlash.never "/about/" =
      policy_normalized_spec TrailingSlash.never "/about/" ∧
    normalize_path TrailingSlash.always "/about" =
      policy_normalized_spec TrailingSlash.always "/about" ∧
    normalize_path TrailingSlash.always "/file.json" =
      policy_normalized_spec TrailingSlash.always "/file.json" ∧
    policy_normalized_spec TrailingSlash.never "/about/" = "/about" ∧
    policy_normalized_spec TrailingSlash.always "/about" = "/about/" ∧
    policy_normalized_spec TrailingSlash.always "/file.json" = "/file.json" :=
  ⟨(c3_normalization_policy TrailingSlash.never "/about/").2 (by decide),
   (c3_normalization_policy TrailingSlash.always "/about").2 (by decide),
   (c3_normalization_policy TrailingSlash.always "/file.json").2 (by decide),
   by decide, by decide, by decide⟩

/-- Counterexample input for C4: with base `/app` and policy `never`,
navigating to `/app/about/` rewrites the history entry to `/about` — the
base prefix is dropped — whereas the canonical address-bar form of the URL
being navigated to is `/app/about`.  The replaced URL does not even lie
under the configured base. -/
theorem c4_counterexample :
    routerApp.navStep urlApp histApp urlApp =
      Except.ok ((⟨"/about/?", [], "/about", []⟩ : NavigationInfo),
        (⟨[], ⟨"/about", none⟩⟩ : History)) ∧
    ("/about" : String) ≠ "/app/about" ∧
    jsStartsWith "/about" routerApp.base = false := by
  refine ⟨rfl, by decide, by decide⟩

/-- C4 amended: whenever normalization changes the resolved path, the
current history entry is rewritten in place — replace, not push, so the
back stack and the entry count are unchanged — to the string formed by the
normalized decoded base-stripped path followed by the location's search
string.  (This coincides with the canonical form of the target URL only
when the base is empty and the pathname needs no percent-decoding; the
base prefix is not re-applied, as the counterexample shows.) -/
theorem c4_amended_replace_in_place (r : Router) (loc url : Url) (hist : History)
    (info : NavigationInfo) (h : r.parse loc url = some info)
    (hchg : normalize_path r.trailing_slash info.path ≠ info.path) :
    ∃ info2, r.navStep loc hist url = Except.ok
        (info2, hist.replace ⟨normalize_path r.trailing_slash info.path ++ loc.search, none⟩) ∧
      (hist.replace ⟨normalize_path r.trailing_slash info.path ++ loc.search, none⟩).length
        = hist.length ∧
      (hist.replace ⟨normalize_path r.trailing_slash info.path ++ loc.search, none⟩).back
        = hist.back :=
  ⟨_, navStep_changed r loc url hist info h hchg, rfl, rfl⟩

/-- Witness for C4 amended at the concrete `/app/about/` navigation. -/
theorem c4_amended_replace_in_place_witness :
    ∃ info2, routerApp.navStep urlApp histApp urlApp = Except.ok
        (info2, histApp.replace
          ⟨normalize_path routerApp.trailing_slash "/about/" ++ urlApp.search, none⟩) ∧
      (histApp.replace
        ⟨normalize_path routerApp.trailing_slash "/about/" ++ urlApp.search, none⟩).length
        = histApp.length ∧
      (histApp.replace
        ⟨normalize_path routerApp.trailing_slash "/about/" ++ urlApp.search, none⟩).back
        = histApp.back :=
  c4_amended_replace_in_place routerApp urlApp urlApp histApp
    ⟨"/about/?", [], "/about/", []⟩ rfl (by decide)

/-- C10: when normalization rewrites `info.path`, the other fields of the
NavigationInfo passed onward to the renderer are unchanged — its `id`
still equals the pre-normalization path + `?` + the stringified query, its
`routes` are still the ones matched against the pre-normalization path,
and its `query` is untouched; only `path` carries the normalized value. -/
theorem c10_normalization_frame (r : Router) (loc url : Url) (hist : History)
    (info : NavigationInfo) (h : r.parse loc url = some info)
    (hchg : normalize_path r.trailing_slash info.path ≠ info.path) :
    ∃ info2 hist2, r.navStep loc hist url = Except.ok (info2, hist2) ∧
      info2.id = info.id ∧
      info2.query = info.query ∧
      info2.routes = info.routes ∧
      info2.path = normalize_path r.trailing_slash info.path ∧
      info.id = info.path ++ "?" ++ queryToString info.query ∧
      info.routes = (r.routes.filter fun route => route.test info.path) := by
  obtain ⟨hid, hroutes, -⟩ := parse_some_fields r loc url info h
  exact ⟨_, _, navStep_changed r loc url hist info h hchg,
    rfl, rfl, rfl, rfl, hid, hroutes⟩

/-- Witness for C10 at the concrete `/app/about/` navigation. -/
theorem c10_normalization_frame_witness :
    ∃ info2 hist2, routerApp.navStep urlApp histApp urlApp = Except.ok (info2, hist2) ∧
      info2.id = NavigationInfo.id ⟨"/about/?", [], "/about/", []⟩ ∧
      info2.query = NavigationInfo.query ⟨"/about/?", [], "/about/", []⟩ ∧
      info2.routes = NavigationInfo.routes ⟨"/about/?", [], "/about/", []⟩ ∧
      info2.path = normalize_path routerApp.trailing_slash "/about/" ∧
      NavigationInfo.id ⟨"/about/?", [], "/about/", []⟩ =
        "/about/" ++ "?" ++ queryToString (NavigationInfo.query ⟨"/about/?", [], "/about/", []⟩) ∧
      NavigationInfo.routes ⟨"/about/?", [], "/about/", []⟩ =
        (routerApp.routes.filter fun route => route.test "/about/") :=
  c10_normalization_frame routerApp urlApp urlApp histApp
    ⟨"/about/?", [], "/about/", []⟩ rfl (by decide)

/-- C5: for a click the handler accepts (router enabled, primary
unmodified button, not default-prevented, anchor with an href): when the
anchor's href equals the current location's full URL, `preventDefault`
runs exactly when the location has no hash and `_navigate` is never
invoked; any other href (on a non-download, non-external, non-targeted,
owned anchor) pushes a history entry for the target URL and invokes
`_navigate` with it, and `preventDefault` runs. -/
theorem c5_click_interception (r : Router) (loc : Url) (hist : History) (sc : Scroll)
    (ev : ClickEvent) (a : Anchor) (u : Url)
    (hen : r.enabled = true) (hb : ev.button = 0) (hw : ev.which = 1)
    (hmk : ev.metaKey = false) (hck : ev.ctrlKey = false)
    (hsk : ev.shiftKey = false) (hak : ev.altKey = false)
    (hdp : ev.defaultPrevented = false) (hhref : a.href = some u) :
    (u.href = loc.href ∧ loc.hash = "" →
      r.handle_click loc hist sc ev (some a) = ⟨hist, none, true⟩) ∧
    (u.href = loc.href ∧ loc.hash ≠ "" →
      r.handle_click loc hist sc ev (some a) = ⟨hist, none, false⟩) ∧
    (u.href ≠ loc.href ∧ a.hasDownload = false ∧ relIncludesExternal a.rel = false
        ∧ a.target = "" ∧ r.owns loc u = true →
      r.handle_click loc hist sc ev (some a) =
        ⟨hist.push ⟨u.href, none⟩,
          some (u, (if a.hasNoscroll = true then some sc else none), [], u.hash),
          true⟩) := by
  refine ⟨?_, ?_, ?_⟩
  · rintro ⟨h1, h2⟩
    simp [Router.handle_click, hen, hb, hw, hmk, hck, hsk, hak, hdp, hhref, h1, h2]
  · rintro ⟨h1, h2⟩
    simp [Router.handle_click, hen, hb, hw, hmk, hck, hsk, hak, hdp, hhref, h1, h2]
  · rintro ⟨h1, h2, h3, h4, h5⟩
    simp [Router.handle_click, hen, hb, hw, hmk, hck, hsk, hak, hdp, hhref,
      h1, h2, h3, h4, h5]

/-- Witness for C5: a concrete accepted click on an owned anchor whose
href differs from the current location pushes an entry and navigates. -/
theorem c5_click_interception_witness :
    router0.handle_click loc0 hist0 sc0 ev0 (some anchorNav) =
      ⟨hist0.push ⟨urlA.href, none⟩,
        some (urlA, (if anchorNav.hasNoscroll = true then some sc0 else none), [], urlA.hash),
        true⟩ :=
  (c5_click_interception router0 loc0 hist0 sc0 ev0 anchorNav urlA
      rfl rfl rfl rfl rfl rfl rfl rfl rfl).2.2
    ⟨by decide, rfl, rfl, rfl, by decide⟩

/-- C6: the synchronous prefix of `_navigate` and `prefetch` each throw
exactly when the URL is not owned (`parse` is absent); on an owned URL
neither throws, and `prefetch` delegates directly to the renderer's
`load` with the parsed info. -/
theorem c6_ownership_errors (r : Router) (loc url : Url) (hist : History) :
    ((∃ e, r.navStep loc hist url = Except.error e) ↔ r.owns loc url = false) ∧
    ((∃ e, r.prefetch loc url = Except.error e) ↔ r.owns loc url = false) ∧
    (∀ info, r.parse loc url = some info →
      r.prefetch loc url = Except.ok (RendererCall.load info) ∧
      ∃ res, r.navStep loc hist url = Except.ok res) := by
  cases hpar : r.parse loc url with
  | none =>
    have hof : r.owns loc url = false := (parse_eq_none_iff r loc url).mp hpar
    have hnavErr : r.navStep loc hist url =
        Except.error "Attempted to navigate to a URL that does not belong to this app" := by
      unfold Router.navStep
      rw [hpar]
    have hpreErr : r.prefetch loc url =
        Except.error "Attempted to prefetch a URL that does not belong to this app" := by
      unfold Router.prefetch
      rw [hpar]
    refine ⟨⟨fun _ => hof, fun _ => ⟨_, hnavErr⟩⟩,
      ⟨fun _ => hof, fun _ => ⟨_, hpreErr⟩⟩, ?_⟩
    intro info hinfo
    exact absurd hinfo (by simp)
  | some info =>
    have hot : r.owns loc url = true := owns_of_parse_some r loc url info hpar
    have hnav : ∃ res, r.navStep loc hist url = Except.ok res := by
      by_cases hch : normalize_path r.trailing_slash info.path = info.path
      · exact ⟨(info, hist), by unfold Router.navStep; rw [hpar]; simp [hch]⟩
      · exact ⟨({ info with path := normalize_path r.trailing_slash info.path },
          hist.replace ⟨normalize_path r.trailing_slash info.path ++ loc.search, none⟩),
          navStep_changed r loc url hist info hpar hch⟩
    have hpre : r.prefetch loc url = Except.ok (RendererCall.load info) := by
      unfold Router.prefetch
      rw [hpar]
    refine ⟨?_, ?_, ?_⟩
    · constructor
      · rintro ⟨e, he⟩
        obtain ⟨res, hres⟩ := hnav
        rw [he] at hres
        exact absurd hres (by simp)
      · intro hf
        rw [hot] at hf
        exact absurd hf (by simp)
    · constructor
      · rintro ⟨e, he⟩
        rw [hpre] at he
        exact absurd he (by simp)
      · intro hf
        rw [hot] at hf
        exact absurd hf (by simp)
    · intro info2 hinfo2
      obtain rfl : info = info2 := Option.some.inj hinfo2
      exact ⟨hpre, hnav⟩

/-- Witness for C6: a concrete owned prefetch delegates to the renderer's
`load` and a concrete foreign-origin prefetch throws. -/
theorem c6_ownership_errors_witness :
    router0.prefetch loc0 urlA = Except.ok (RendererCall.load info0) ∧
    (∃ res, router0.navStep loc0 hist0 urlA = Except.ok res) ∧
    ((∃ e, router0.prefetch loc0 urlB = Except.error e) ↔
      router0.owns loc0 urlB = false) :=
  ⟨((c6_ownership_errors router0 loc0 urlA hist0).2.2 info0 rfl).1,
   ((c6_ownership_errors router0 loc0 urlA hist0).2.2 info0 rfl).2,
   (c6_ownership_errors router0 loc0 urlB hist0).2.1⟩

/-- C7: `goto` on an enabled router and an owned URL mutates history with
`replaceState` when the option is set and `pushState` otherwise (replace
keeps the entry count, push adds one) and delegates to `_navigate` with
the target URL; otherwise it assigns `location.href` to the target URL
and returns the never-settling promise, modelled by `handedOff`. -/
theorem c7_goto (r : Router) (loc url : Url) (hist : History) (href : String) (rs : Bool) :
    (r.enabled = true ∧ r.owns loc url = true →
      r.goto loc hist href url rs =
        GotoOutcome.navigated
          (if rs = true then HistoryOp.replace else HistoryOp.push)
          (r.navStep url
            (if rs = true then hist.replace ⟨href, none⟩ else hist.push ⟨href, none⟩)
            url) ∧
      (hist.replace ⟨href, none⟩).length = hist.length ∧
      (hist.push ⟨href, none⟩).length = hist.length + 1) ∧
    (¬ (r.enabled = true ∧ r.owns loc url = true) →
      r.goto loc hist href url rs = GotoOutcome.handedOff url.href) := by
  constructor
  · intro h
    refine ⟨?_, rfl, rfl⟩
    unfold Router.goto
    rw [if_pos h]
  · intro h
    unfold Router.goto
    rw [if_neg h]

/-- Witness for C7: a concrete owned `goto` pushes and delegates, and a
concrete foreign-origin `goto` hands off to the browser. -/
theorem c7_goto_witness :
    router0.goto loc0 hist0 "/x" urlA false =
      GotoOutcome.navigated HistoryOp.push
        (router0.navStep urlA (hist0.push ⟨"/x", none⟩) urlA) ∧
    router0.goto loc0 hist0 "http://evil.example/x" urlB false =
      GotoOutcome.handedOff urlB.href := by
  constructor
  · have h := ((c7_goto router0 loc0 urlA hist0 "/x" false).1 (by decide)).1
    simpa using h
  · exact (c7_goto router0 loc0 urlB hist0 "http://evil.example/x" false).2
      (by decide)

/-- Counterexample input for C8: the hover/touch prefetch trigger carries
no `enabled` guard, so with the router disabled a prefetch-marked anchor
still produces a speculative renderer `load` call. -/
theorem c8_counterexample :
    routerD.enabled = false ∧
    routerD.trigger_prefetch loc0 (some anchorPre) =
      some (Except.ok (RendererCall.load info0)) :=
  ⟨rfl, rfl⟩

/-- C8 amended: only the click and popstate listeners are guarded by the
`enabled` flag — while disabled they perform no navigation, history
mutation or renderer call; the hover/touch prefetch trigger ignores the
flag entirely, and the scroll listener rewrites the current history entry
unconditionally; `disable` and `enable` only toggle the flag and remove
no listener. -/
theorem c8_amended_guards (r : Router) (loc : Url) (hist : History) (sc : Scroll)
    (ev : ClickEvent) (a : Option Anchor) (es : Option (Option Scroll))
    (lhref : String) (h : r.enabled = false) :
    r.handle_click loc hist sc ev a = ⟨hist, none, false⟩ ∧
    r.handle_popstate loc es = none ∧
    (∀ b, Router.trigger_prefetch { r with enabled := b } loc a =
      r.trigger_prefetch loc a) ∧
    handle_scroll hist lhref sc = hist.replace ⟨lhref, some sc⟩ ∧
    r.disable = { r with enabled := false } ∧
    r.enable = { r with enabled := true } := by
  refine ⟨?_, ?_, fun b => rfl, rfl, rfl, rfl⟩
  · unfold Router.handle_click
    rw [if_pos h]
  · unfold Router.handle_popstate
    cases es with
    | none => rfl
    | some s => simp [h]

/-- Witness for C8 amended: the concrete disabled router ignores a click
and a popstate event. -/
theorem c8_amended_guards_witness :
    routerD.handle_click loc0 hist0 sc0 ev0 (some anchorPre) = ⟨hist0, none, false⟩ ∧
    routerD.handle_popstate loc0 (some none) = none :=
  ⟨(c8_amended_guards routerD loc0 hist0 sc0 ev0 (some anchorPre) (some none) "" rfl).1,
   (c8_amended_guards routerD loc0 hist0 sc0 ev0 (some anchorPre) (some none) "" rfl).2.1⟩

end KitClient
